import Mathlib

/-!
Shallow embedding of `src/examples/clear_the_screen.rs` (a gfx-hal
"clear the screen" example). External library behaviour (adapters,
surface capabilities, fallible device calls) is modelled by an
environment record; the repository's own control flow is translated
function-by-function. Rust `Result<_, &'static str>` becomes `Out`,
which also has a `panic` constructor for `panic!`/`unimplemented!`
aborts. Handle creation/destruction and per-frame synchronization are
recorded as event traces so ordering claims can be stated.
-/

namespace ClearScreen

/-- Outcome of a fallible Rust computation: a normal return, an `Err`
carrying its static message, or a `panic!`/`unimplemented!` abort. -/
inductive Out (α : Type) : Type
  | ok (a : α)
  | err (m : String)
  | panic (m : String)
  deriving Repr, DecidableEq

def Out.bind {α β : Type} : Out α → (α → Out β) → Out β
  | .ok a, f => f a
  | .err m, _ => .err m
  | .panic m, _ => .panic m

instance : Monad Out where
  pure := Out.ok
  bind := Out.bind

/-- `gfx_hal::window::PresentMode`. -/
inductive PresentMode
  | Immediate
  | Relaxed
  | Fifo
  | Mailbox
  deriving Repr, DecidableEq

/-- `gfx_hal::window::CompositeAlpha`. -/
inductive CompositeAlpha
  | Opaque
  | PreMultiplied
  | PostMultiplied
  | Inherit
  deriving Repr, DecidableEq

/-- `gfx_hal::format::ChannelType` (the variants relevant here). -/
inductive ChannelType
  | Unorm
  | Snorm
  | Uint
  | Sint
  | Ufloat
  | Sfloat
  | Srgb
  deriving Repr, DecidableEq

/-- A surface format: `base` tags the base format, `channel` is the
channel type returned by `format.base_format().1`. -/
structure Format where
  base : Nat
  channel : ChannelType
  deriving Repr, DecidableEq

/-- `Format::Rgba8Srgb`, the fallback when no preferred list is given. -/
def Format.Rgba8Srgb : Format := { base := 8, channel := ChannelType.Srgb }

structure Extent2D where
  width : Nat
  height : Nat
  deriving Repr, DecidableEq

/-- The fields of `SurfaceCapabilities` that the example reads. -/
structure Caps where
  image_count_end : Nat
  extents_end : Extent2D
  usage_color_attachment : Bool
  deriving Repr, DecidableEq

/-- The tuple returned by `surface.compatibility(&adapter.physical_device)`. -/
structure Compat where
  caps : Caps
  preferred_formats : Option (List Format)
  present_modes : List PresentMode
  composite_alphas : List CompositeAlpha
  deriving Repr, DecidableEq

/-- What the example observes about one queue family. -/
structure QueueFamilyDesc where
  supports_graphics : Bool
  max_queues : Nat
  surface_support : Bool
  deriving Repr, DecidableEq

structure AdapterDesc where
  queue_families : List QueueFamilyDesc
  deriving Repr, DecidableEq

/-- `gfx_hal::window::Backbuffer`: a list of images or a raw framebuffer. -/
inductive BackbufferDesc
  | images (n : Nat)
  | framebuffer
  deriving Repr, DecidableEq

/-- The external library/driver behaviour that `HalState::new` observes:
which adapters exist, whether each fallible call succeeds, and the
surface compatibility report. The repository has no control over any
of this. -/
structure Env where
  adapters : List AdapterDesc
  open_ok : Bool
  take_ok : Bool
  num_queues : Nat
  compat : Compat
  swapchain_ok : Bool
  backbuffer : BackbufferDesc
  render_pass_ok : Bool
  image_view_ok : Nat → Bool
  framebuffer_ok : Nat → Bool
  command_pool_ok : Bool
  semaphore_ok : Nat → Bool
  fence_ok : Nat → Bool

/-- A fence handle; `signaled` is the state it was created with
(`device.create_fence(true)`) until `reset_fence` clears it. -/
structure Fence where
  signaled : Bool
  deriving Repr, DecidableEq

/-- The model of `HalState`. GPU handles carry no data, so semaphores,
command buffers, framebuffers and image views are `Unit` entries; only
their multiplicity and order matter. `queues` is `queue_group.queues.len()`. -/
structure HalState where
  current_frame : Nat
  frames_in_flight : Nat
  in_flight_fences : List Fence
  render_finished_semaphores : List Unit
  image_available_semaphores : List Unit
  command_buffers : List Unit
  framebuffers : List Unit
  image_views : List Unit
  render_area : Extent2D
  queues : Nat
  format : Format
  deriving Repr, DecidableEq

/-- The predicate applied to each queue family (used twice verbatim in
the source): graphics support, a positive queue count, and surface
support. -/
def qf_suitable (qf : QueueFamilyDesc) : Bool :=
  qf.supports_graphics && decide (0 < qf.max_queues) && qf.surface_support

/-- Adapter selection: the first enumerated adapter with a suitable
queue family, else `Err("Couldn't find a graphical Adapter!")`. -/
def find_adapter (adapters : List AdapterDesc) : Out AdapterDesc :=
  match adapters.find? (fun a => a.queue_families.any qf_suitable) with
  | some a => .ok a
  | none => .err ("Couldn\x27t find a graphical Adapter!")

/-- The second lookup of a suitable queue family, on the chosen adapter. -/
def find_queue_family (adapter : AdapterDesc) : Out QueueFamilyDesc :=
  match adapter.queue_families.find? qf_suitable with
  | some qf => .ok qf
  | none => .err ("Couldn\x27t find a QueueFamily with graphics!")

/-- Present mode choice: first of `[Mailbox, Fifo, Relaxed, Immediate]`
contained in the reported list. -/
def choose_present_mode (present_modes : List PresentMode) : Out PresentMode :=
  match [PresentMode.Mailbox, PresentMode.Fifo, PresentMode.Relaxed,
      PresentMode.Immediate].find? (fun pm => present_modes.contains pm) with
  | some pm => .ok pm
  | none => .err ("No PresentMode values specified!")

/-- Composite alpha choice: first of `[Opaque, Inherit, PreMultiplied,
PostMultiplied]` contained in the reported list. -/
def choose_composite_alpha (composite_alphas : List CompositeAlpha) : Out CompositeAlpha :=
  match [CompositeAlpha.Opaque, CompositeAlpha.Inherit, CompositeAlpha.PreMultiplied,
      CompositeAlpha.PostMultiplied].find? (fun ca => composite_alphas.contains ca) with
  | some ca => .ok ca
  | none => .err ("No CompositeAlpha values specified!")

/-- Format choice (source lines 119-129): `Rgba8Srgb` when no preferred
list is reported; else the first `Srgb` entry; else the first entry;
an empty reported list is an error. -/
def choose_format (preferred_formats : Option (List Format)) : Out Format :=
  match preferred_formats with
  | none => .ok Format.Rgba8Srgb
  | some formats =>
    match formats.find? (fun format => format.channel == ChannelType.Srgb) with
    | some srgb_format => .ok srgb_format
    | none =>
      match formats.get? 0 with
      | some f => .ok f
      | none => .err ("Preferred format list was empty!")

/-- `u32` wrapping decrement, for `caps.image_count.end - 1` (release
semantics: wraps modulo `2 ^ 32` when the input is `0`). -/
def u32_wrapping_sub_one (n : Nat) : Nat :=
  (n + (2 ^ 32 - 1)) % 2 ^ 32

/-- `image_count` (source lines 131-135): `(caps.image_count.end - 1)`
capped at `3` under `Mailbox`, at `2` otherwise. -/
def image_count_of (present_mode : PresentMode) (image_count_end : Nat) : Nat :=
  if present_mode = PresentMode.Mailbox
  then min (u32_wrapping_sub_one image_count_end) 3
  else min (u32_wrapping_sub_one image_count_end) 2

/-- The `SwapchainConfig` the example assembles. -/
structure SwapchainConfig where
  present_mode : PresentMode
  composite_alpha : CompositeAlpha
  format : Format
  extent : Extent2D
  image_count : Nat
  image_layers : Nat
  image_usage_color : Bool
  deriving Repr, DecidableEq

/-- The pure part of the swapchain block of `HalState::new` (source
lines 96-151): everything computed from the compatibility report before
`create_swapchain` is called. -/
def swapchain_params (c : Compat) : Out SwapchainConfig := do
  let present_mode ← choose_present_mode c.present_modes
  let composite_alpha ← choose_composite_alpha c.composite_alphas
  let format ← choose_format c.preferred_formats
  let extent := c.caps.extents_end
  let image_count := image_count_of present_mode c.caps.image_count_end
  let image_layers := 1
  let image_usage_color ←
    if c.caps.usage_color_attachment then Out.ok true
    else Out.err ("The Surface isn\x27t capable of supporting color!")
  Out.ok { present_mode, composite_alpha, format, extent, image_count,
           image_layers, image_usage_color }

/-- The image-view creation loop: one `create_image_view` call per
backbuffer image, aborting on the first failure (`i` is the index of
the next call, the second argument counts remaining images). -/
def create_image_views (image_view_ok : Nat → Bool) : Nat → Nat → Out (List Unit)
  | _, 0 => .ok []
  | i, Nat.succ k =>
    if image_view_ok i then
      match create_image_views image_view_ok (i + 1) k with
      | .ok rest => .ok (() :: rest)
      | .err m => .err m
      | .panic m => .panic m
    else .err ("Couldn\x27t create the image_view for the image!")

/-- The framebuffer creation loop: one `create_framebuffer` call per
image view, aborting on the first failure. -/
def create_framebuffers (framebuffer_ok : Nat → Bool) : Nat → Nat → Out (List Unit)
  | _, 0 => .ok []
  | i, Nat.succ k =>
    if framebuffer_ok i then
      match create_framebuffers framebuffer_ok (i + 1) k with
      | .ok rest => .ok (() :: rest)
      | .err m => .err m
      | .panic m => .panic m
    else .err ("Failed to create a framebuffer!")

/-- The sync-primitive loop (source lines 241-251): per slot it creates
an image-available semaphore, a render-finished semaphore, and a fence
in the signaled state, aborting on the first failure. `semaphore_ok`
is indexed by the running count of `create_semaphore` calls. -/
def create_sync (semaphore_ok fence_ok : Nat → Bool) :
    Nat → Nat → Out (List Unit × List Unit × List Fence)
  | _, 0 => .ok ([], [], [])
  | k, Nat.succ c =>
    if semaphore_ok (2 * k) then
      if semaphore_ok (2 * k + 1) then
        if fence_ok k then
          match create_sync semaphore_ok fence_ok (k + 1) c with
          | .ok (ia, rf, fs) => .ok ((() : Unit) :: ia, (() : Unit) :: rf, ({ signaled := true } : Fence) :: fs)
          | .err m => .err m
          | .panic m => .panic m
        else .err ("Could not create a fence!")
      else .err ("Could not create a semaphore!")
    else .err ("Could not create a semaphore!")

/-- GPU-handle creation/destruction events, for ordering statements. -/
inductive ResEv
  | instanceH
  | surfaceH
  | deviceH
  | swapchainH
  | renderPassH
  | imageView (i : Nat)
  | framebufferH (i : Nat)
  | commandPoolH
  | commandBuffer (i : Nat)
  | semImageAvailable (i : Nat)
  | semRenderFinished (i : Nat)
  | fenceH (i : Nat)
  deriving Repr, DecidableEq

/-- A boolean check that produces `Err(m)` when `b` is false, the shape
of the `if .. { Ok(()) } else { Err(..) }?` steps of `HalState::new`. -/
def require (b : Bool) (m : String) : Out Unit :=
  if b then .ok () else .err m

/-- `HalState::new` (source lines 53-272), returning the constructed
state together with the handle-creation trace. Creation order:
instance, surface, device, swapchain, render pass, image views,
framebuffers, command pool, command buffers, then per frame slot an
image-available semaphore, a render-finished semaphore and a fence. -/
def HalState.new (env : Env) : Out (HalState × List ResEv) := do
  let adapter ← find_adapter env.adapters
  let _queue_family ← find_queue_family adapter
  let _ ← require env.open_ok ("Couldn\x27t open the PhysicalDevice!")
  let num_queues ←
    if env.take_ok then Out.ok env.num_queues
    else Out.err ("Couldn\x27t take ownership of the QueueGroup!")
  let _ ← require (decide (0 < num_queues))
      ("The QueueGroup did not have any CommandQueues available!")
  let config ← swapchain_params env.compat
  let _ ← require env.swapchain_ok ("Failed to create the swapchain!")
  let frames_in_flight := config.image_count
  let _ ← require env.render_pass_ok ("Couldn\x27t create a render pass!")
  let n_images ←
    match env.backbuffer with
    | .images n => Out.ok n
    | .framebuffer => Out.panic ("Can\x27t handle framebuffer backbuffer!")
  let image_views ← create_image_views env.image_view_ok 0 n_images
  let framebuffers ← create_framebuffers env.framebuffer_ok 0 image_views.length
  let _ ← require env.command_pool_ok ("Could not create the raw command pool!")
  let command_buffers := framebuffers.map (fun _ => ())
  let sync ← create_sync env.semaphore_ok env.fence_ok 0 command_buffers.length
  let st : HalState := {
    current_frame := 0
    frames_in_flight := frames_in_flight
    in_flight_fences := sync.2.2
    render_finished_semaphores := sync.2.1
    image_available_semaphores := sync.1
    command_buffers := command_buffers
    framebuffers := framebuffers
    image_views := image_views
    render_area := config.extent
    queues := num_queues
    format := config.format }
  let ctrace :=
    [ResEv.instanceH, ResEv.surfaceH, ResEv.deviceH, ResEv.swapchainH, ResEv.renderPassH]
    ++ (List.range image_views.length).map ResEv.imageView
    ++ (List.range framebuffers.length).map ResEv.framebufferH
    ++ [ResEv.commandPoolH]
    ++ (List.range command_buffers.length).map ResEv.commandBuffer
    ++ ((List.range command_buffers.length).map
        (fun k => [ResEv.semImageAvailable k, ResEv.semRenderFinished k, ResEv.fenceH k])).flatten
  Out.ok (st, ctrace)

/-- The destruction trace of `impl Drop for HalState` (source lines
342-373): every fence, then every render-finished semaphore, then every
image-available semaphore, then every framebuffer, then every image
view, then the command pool, the render pass, the swapchain, the
device, and last the instance. -/
def HalState.dropTrace (st : HalState) : List ResEv :=
  (List.range st.in_flight_fences.length).map ResEv.fenceH
  ++ (List.range st.render_finished_semaphores.length).map ResEv.semRenderFinished
  ++ (List.range st.image_available_semaphores.length).map ResEv.semImageAvailable
  ++ (List.range st.framebuffers.length).map ResEv.framebufferH
  ++ (List.range st.image_views.length).map ResEv.imageView
  ++ [ResEv.commandPoolH, ResEv.renderPassH, ResEv.swapchainH, ResEv.deviceH,
      ResEv.instanceH]

/-- Per-call device/swapchain behaviour observed by `draw_clear_frame`. -/
structure DrawEnv where
  wait_ok : Bool
  reset_ok : Bool
  acquire_result : Option Nat
  present_ok : Bool
  deriving Repr

/-- The per-frame synchronization operations, in trace form. -/
inductive DrawEv
  | waitFence (i : Nat)
  | resetFence (i : Nat)
  | acquireImage
  | submit (i : Nat)
  | present (i : Nat)
  deriving Repr, DecidableEq

inductive DrawOutcome
  | ok
  | err (m : String)
  | panicked
  deriving Repr, DecidableEq

/-- `HalState::draw_clear_frame` (source lines 275-332). Indexing the
sync vectors at `current_frame` happens before the frame counter is
advanced; an out-of-range index, `frames_in_flight == 0` (`% 0`), an
out-of-range acquired image index, or an empty queue list is a Rust
panic. The recorded clear color does not influence control flow and is
tracked by the main-loop model instead. -/
def HalState.draw_clear_frame (st : HalState) (env : DrawEnv) :
    HalState × List DrawEv × DrawOutcome :=
  let cf := st.current_frame
  match st.in_flight_fences.get? cf, st.image_available_semaphores.get? cf,
      st.render_finished_semaphores.get? cf with
  | some _, some _, some _ =>
    if st.frames_in_flight = 0 then (st, [], .panicked)
    else
      let st1 := { st with current_frame := (cf + 1) % st.frames_in_flight }
      if env.wait_ok = false then
        (st1, [DrawEv.waitFence cf], .err ("Failed to wait on the fence!"))
      else if env.reset_ok = false then
        (st1, [DrawEv.waitFence cf, DrawEv.resetFence cf],
          .err ("Couldn\x27t reset the fence!"))
      else
        let st2 := { st1 with
          in_flight_fences := st1.in_flight_fences.set cf { signaled := false } }
        match env.acquire_result with
        | none =>
          (st2, [DrawEv.waitFence cf, DrawEv.resetFence cf, DrawEv.acquireImage],
            .err ("Couldn\x27t acquire an image from the swapchain!"))
        | some i =>
          match st2.command_buffers.get? i, st2.framebuffers.get? i with
          | some _, some _ =>
            if st2.queues = 0 then
              (st2, [DrawEv.waitFence cf, DrawEv.resetFence cf, DrawEv.acquireImage],
                .panicked)
            else if env.present_ok then
              (st2, [DrawEv.waitFence cf, DrawEv.resetFence cf, DrawEv.acquireImage,
                DrawEv.submit i, DrawEv.present i], .ok)
            else
              (st2, [DrawEv.waitFence cf, DrawEv.resetFence cf, DrawEv.acquireImage,
                DrawEv.submit i, DrawEv.present i],
                .err ("Failed to present into the swapchain!"))
          | _, _ =>
            (st2, [DrawEv.waitFence cf, DrawEv.resetFence cf, DrawEv.acquireImage],
              .panicked)
  | _, _, _ => (st, [], .panicked)

/-- The window events `main` reacts to. Scalar values (logical sizes,
cursor positions, the `f32` color channels) are modelled by an
arbitrary type `F` with division, addition, multiplication and the
constants, so every statement below holds for any arithmetic semantics
including a floating-point one. -/
inductive WEvent (F : Type)
  | closeRequested
  | resized (w h : F)
  | cursorMoved (x y : F)
  | other
  deriving Repr, DecidableEq

/-- The mutable locals of `main`: `running`, `frame_width`,
`frame_height`, `mouse_x`, `mouse_y`. -/
structure LoopState (F : Type) where
  running : Bool
  frame_width : F
  frame_height : F
  mouse_x : F
  mouse_y : F
  deriving Repr, DecidableEq

/-- The `poll_events` closure of `main` (source lines 431-451). -/
def processEvent {F : Type} (st : LoopState F) : WEvent F → LoopState F
  | .closeRequested => { st with running := false }
  | .resized w h => { st with frame_width := w, frame_height := h }
  | .cursorMoved x y => { st with mouse_x := x, mouse_y := y }
  | .other => st

/-- One main-loop iteration's external input: the batch of window
events delivered by `poll_events`, and what `draw_clear_frame` would
return if called this iteration. -/
structure IterInput (F : Type) where
  events : List (WEvent F)
  draw_result : Except String Unit

/-- Observable actions of `main` after startup: calls to
`draw_clear_frame` with their color argument and result, and the final
`wait_until_idle` call. -/
inductive MainEv (F : Type)
  | draw (color : F × F × F × F) (result : Except String Unit)
  | waitIdle

inductive ExitReason
  | closed
  | drawFailed
  deriving Repr, DecidableEq

/-- The `'main_loop` of `main` (source lines 430-473) over a finite
script of iterations, followed by the `wait_until_idle` call that runs
whenever the loop is left. `c03` stands for the `0.3` literal. Returns
the action trace and how (whether) the loop exited; `none` means the
script ran out with the loop still going. -/
def runMain {F : Type} [Div F] [Add F] [Mul F] [One F] (c03 : F) :
    List (IterInput F) → LoopState F → List (MainEv F) × Option ExitReason
  | [], _ => ([], none)
  | it :: rest, st =>
    let st1 := it.events.foldl processEvent st
    if st1.running = false then ([MainEv.waitIdle], some ExitReason.closed)
    else
      let r := st1.mouse_x / st1.frame_width
      let g := st1.mouse_y / st1.frame_height
      let b := (r + g) * c03
      let color := (r, g, b, (1 : F))
      match it.draw_result with
      | .error e =>
        ([MainEv.draw color (Except.error e), MainEv.waitIdle],
          some ExitReason.drawFailed)
      | .ok _ =>
        let res := runMain c03 rest st1
        (MainEv.draw color (Except.ok ()) :: res.1, res.2)

/-- The colors of the `draw` events of a trace, in order. -/
def drawsOf {F : Type} : List (MainEv F) → List (F × F × F × F)
  | [] => []
  | MainEv.draw c _ :: rest => c :: drawsOf rest
  | MainEv.waitIdle :: rest => drawsOf rest

/-- The most recent `Resized` event of a history, if any (spec side). -/
def lastResized {F : Type} : List (WEvent F) → Option (F × F)
  | [] => none
  | e :: rest =>
    match lastResized rest with
    | some p => some p
    | none =>
      match e with
      | .resized w h => some (w, h)
      | _ => none

/-- The most recent `CursorMoved` event of a history, if any (spec side). -/
def lastCursor {F : Type} : List (WEvent F) → Option (F × F)
  | [] => none
  | e :: rest =>
    match lastCursor rest with
    | some p => some p
    | none =>
      match e with
      | .cursorMoved x y => some (x, y)
      | _ => none

/-- Spec-side color formula: with `(w, h)` the most recent frame size
(default: the initial window size) and `(x, y)` the most recent cursor
position (default `(0, 0)`), the color is
`[x / w, y / h, (x / w + y / h) * 0.3, 1.0]`. -/
def specColor {F : Type} [Div F] [Add F] [Mul F] [One F] [Zero F]
    (c03 w0 h0 : F) (past : List (WEvent F)) : F × F × F × F :=
  let wh := (lastResized past).getD (w0, h0)
  let xy := (lastCursor past).getD (0, 0)
  let r := xy.1 / wh.1
  let g := xy.2 / wh.2
  (r, g, (r + g) * c03, 1)

/-- Spec-side expected color sequence: one color per iteration, each
computed by `specColor` from all events delivered up to and including
that iteration. -/
def specColorsFrom {F : Type} [Div F] [Add F] [Mul F] [One F] [Zero F]
    (c03 w0 h0 : F) (past : List (WEvent F)) :
    List (List (WEvent F)) → List (F × F × F × F)
  | [] => []
  | evs :: rest =>
    specColor c03 w0 h0 (past ++ evs) ::
      specColorsFrom c03 w0 h0 (past ++ evs) rest

/-- Expected colors for a whole run, starting from an empty history. -/
def specColors {F : Type} [Div F] [Add F] [Mul F] [One F] [Zero F]
    (c03 w0 h0 : F) (batches : List (List (WEvent F))) : List (F × F × F × F) :=
  specColorsFrom c03 w0 h0 [] batches

/-! ## Shared lemmas -/

@[simp]
theorem Out.bind_eq {α β : Type} (x : Out α) (f : α → Out β) :
    x >>= f = Out.bind x f := rfl

@[simp]
theorem Out.pure_eq {α : Type} (a : α) : (pure a : Out α) = Out.ok a := rfl

theorem Out.bind_eq_ok {α β : Type} (x : Out α) (f : α → Out β) (b : β) :
    Out.bind x f = Out.ok b ↔ ∃ a, x = Out.ok a ∧ f a = Out.ok b := by
  cases x <;> simp [Out.bind]

theorem Out.bind_eq_err {α β : Type} (x : Out α) (f : α → Out β) (m : String) :
    Out.bind x f = Out.err m ↔
      x = Out.err m ∨ ∃ a, x = Out.ok a ∧ f a = Out.err m := by
  cases x <;> simp [Out.bind]

theorem require_eq_ok (b : Bool) (m : String) (u : Unit) :
    require b m = Out.ok u ↔ b = true := by
  cases b <;> simp [require]

theorem require_eq_err (b : Bool) (m0 m : String) (h : require b m0 = Out.err m) :
    m = m0 ∧ b = false := by
  cases b
  · simp [require] at h
    simp [h]
  · simp [require] at h

theorem find_adapter_eq_ok (adapters : List AdapterDesc) (a : AdapterDesc) :
    find_adapter adapters = Out.ok a ↔
      adapters.find? (fun x => x.queue_families.any qf_suitable) = some a := by
  unfold find_adapter
  split
  next a' heq => rw [heq]; simp
  next heq => rw [heq]; simp

theorem find_adapter_eq_err (adapters : List AdapterDesc) (m : String)
    (h : find_adapter adapters = Out.err m) :
    m = "Couldn\x27t find a graphical Adapter!" ∧
      adapters.find? (fun x => x.queue_families.any qf_suitable) = none := by
  unfold find_adapter at h
  split at h
  next a' heq => cases h
  next heq =>
    cases h
    exact ⟨rfl, heq⟩

theorem find_queue_family_eq_err (adapter : AdapterDesc) (m : String)
    (h : find_queue_family adapter = Out.err m) :
    m = "Couldn\x27t find a QueueFamily with graphics!" := by
  unfold find_queue_family at h
  split at h <;> simp_all

theorem choose_present_mode_eq_err (pms : List PresentMode) (m : String)
    (h : choose_present_mode pms = Out.err m) :
    m = "No PresentMode values specified!" := by
  unfold choose_present_mode at h
  split at h <;> simp_all

theorem choose_composite_alpha_eq_err (cas : List CompositeAlpha) (m : String)
    (h : choose_composite_alpha cas = Out.err m) :
    m = "No CompositeAlpha values specified!" := by
  unfold choose_composite_alpha at h
  split at h <;> simp_all

theorem choose_format_eq_err (pf : Option (List Format)) (m : String)
    (h : choose_format pf = Out.err m) :
    m = "Preferred format list was empty!" := by
  unfold choose_format at h
  split at h
  · simp_all
  · split at h
    · simp_all
    · split at h <;> simp_all

theorem swapchain_params_ok_inv (c : Compat) (config : SwapchainConfig)
    (h : swapchain_params c = Out.ok config) :
    ∃ pm ca f,
      choose_present_mode c.present_modes = Out.ok pm ∧
      choose_composite_alpha c.composite_alphas = Out.ok ca ∧
      choose_format c.preferred_formats = Out.ok f ∧
      c.caps.usage_color_attachment = true ∧
      config = { present_mode := pm, composite_alpha := ca, format := f,
                 extent := c.caps.extents_end,
                 image_count := image_count_of pm c.caps.image_count_end,
                 image_layers := 1, image_usage_color := true } := by
  simp only [swapchain_params, Out.bind_eq, Out.pure_eq] at h
  obtain ⟨pm, hpm, h⟩ := (Out.bind_eq_ok _ _ _).mp h
  obtain ⟨ca, hca, h⟩ := (Out.bind_eq_ok _ _ _).mp h
  obtain ⟨f, hf, h⟩ := (Out.bind_eq_ok _ _ _).mp h
  by_cases hc : c.caps.usage_color_attachment = true
  · rw [if_pos hc] at h
    simp only [Out.bind] at h
    refine ⟨pm, ca, f, hpm, hca, hf, hc, ?_⟩
    cases h
    rfl
  · rw [if_neg hc] at h
    simp [Out.bind] at h

theorem swapchain_params_eq_err (c : Compat) (m : String)
    (h : swapchain_params c = Out.err m) :
    m ∈ ["No PresentMode values specified!", "No CompositeAlpha values specified!",
      "Preferred format list was empty!",
      "The Surface isn\x27t capable of supporting color!"] := by
  simp only [swapchain_params, Out.bind_eq, Out.pure_eq] at h
  rcases (Out.bind_eq_err _ _ _).mp h with h | ⟨pm, hpm, h⟩
  · simp [choose_present_mode_eq_err _ _ h]
  rcases (Out.bind_eq_err _ _ _).mp h with h | ⟨ca, hca, h⟩
  · simp [choose_composite_alpha_eq_err _ _ h]
  rcases (Out.bind_eq_err _ _ _).mp h with h | ⟨f, hf, h⟩
  · simp [choose_format_eq_err _ _ h]
  by_cases hc : c.caps.usage_color_attachment = true
  · rw [if_pos hc] at h
    simp [Out.bind] at h
  · rw [if_neg hc] at h
    simp only [Out.bind] at h
    cases h
    simp

theorem create_image_views_ok_length (ok : Nat → Bool) (i n : Nat) (l : List Unit)
    (h : create_image_views ok i n = Out.ok l) : l.length = n := by
  induction n generalizing i l with
  | zero =>
    unfold create_image_views at h
    cases h
    rfl
  | succ k ih =>
    unfold create_image_views at h
    split at h
    · split at h <;> try cases h
      next rest heq => simp [ih _ _ heq]
    · cases h

theorem create_image_views_eq_err (ok : Nat → Bool) (i n : Nat) (m : String)
    (h : create_image_views ok i n = Out.err m) :
    m = "Couldn\x27t create the image_view for the image!" := by
  induction n generalizing i with
  | zero =>
    unfold create_image_views at h
    cases h
  | succ k ih =>
    unfold create_image_views at h
    split at h
    · split at h
      next rest heq => cases h
      next m' heq =>
        cases h
        exact ih _ heq
      next m' heq => cases h
    · cases h
      rfl

theorem create_framebuffers_ok_length (ok : Nat → Bool) (i n : Nat) (l : List Unit)
    (h : create_framebuffers ok i n = Out.ok l) : l.length = n := by
  induction n generalizing i l with
  | zero =>
    unfold create_framebuffers at h
    cases h
    rfl
  | succ k ih =>
    unfold create_framebuffers at h
    split at h
    · split at h <;> try cases h
      next rest heq => simp [ih _ _ heq]
    · cases h

theorem create_framebuffers_eq_err (ok : Nat → Bool) (i n : Nat) (m : String)
    (h : create_framebuffers ok i n = Out.err m) :
    m = "Failed to create a framebuffer!" := by
  induction n generalizing i with
  | zero =>
    unfold create_framebuffers at h
    cases h
  | succ k ih =>
    unfold create_framebuffers at h
    split at h
    · split at h
      next rest heq => cases h
      next m' heq =>
        cases h
        exact ih _ heq
      next m' heq => cases h
    · cases h
      rfl

theorem create_sync_ok_inv (sok fok : Nat → Bool) (k n : Nat)
    (ia rf : List Unit) (fs : List Fence)
    (h : create_sync sok fok k n = Out.ok (ia, rf, fs)) :
    ia.length = n ∧ rf.length = n ∧ fs.length = n ∧
      ∀ f ∈ fs, f.signaled = true := by
  induction n generalizing k ia rf fs with
  | zero =>
    unfold create_sync at h
    cases h
    simp
  | succ c ih =>
    unfold create_sync at h
    split at h
    · split at h
      · split at h
        · split at h <;> try cases h
          next ia' rf' fs' heq =>
            obtain ⟨h1, h2, h3, h4⟩ := ih _ _ _ _ heq
            refine ⟨by simp [h1], by simp [h2], by simp [h3], ?_⟩
            intro f hf
            rcases List.mem_cons.mp hf with hf | hf
            · simp [hf]
            · exact h4 f hf
        · cases h
      · cases h
    · cases h

theorem create_sync_eq_err (sok fok : Nat → Bool) (k n : Nat) (m : String)
    (h : create_sync sok fok k n = Out.err m) :
    m = "Could not create a semaphore!" ∨ m = "Could not create a fence!" := by
  induction n generalizing k with
  | zero =>
    unfold create_sync at h
    cases h
  | succ c ih =>
    unfold create_sync at h
    split at h
    · split at h
      · split at h
        · split at h
          next ia' rf' fs' heq => cases h
          next m' heq =>
            cases h
            exact ih _ heq
          next m' heq => cases h
        · cases h
          right
          rfl
      · cases h
        left
        rfl
    · cases h
      left
      rfl

/-- Full inversion of a successful `HalState::new`: the swapchain
parameters were computed from the compatibility report, the backbuffer
was an image list of some size `n`, all per-slot vectors have length
`n`, all fences were created signaled, and the creation trace is as the
source orders it. -/
theorem new_ok_inv (env : Env) (st : HalState) (ctr : List ResEv)
    (h : HalState.new env = Out.ok (st, ctr)) :
    ∃ config n,
      swapchain_params env.compat = Out.ok config ∧
      env.backbuffer = BackbufferDesc.images n ∧
      st.current_frame = 0 ∧
      st.frames_in_flight = config.image_count ∧
      st.format = config.format ∧
      st.render_area = config.extent ∧
      0 < st.queues ∧
      st.image_views.length = n ∧
      st.framebuffers.length = n ∧
      st.command_buffers.length = n ∧
      st.in_flight_fences.length = n ∧
      st.render_finished_semaphores.length = n ∧
      st.image_available_semaphores.length = n ∧
      (∀ f ∈ st.in_flight_fences, f.signaled = true) ∧
      ctr = [ResEv.instanceH, ResEv.surfaceH, ResEv.deviceH, ResEv.swapchainH,
          ResEv.renderPassH]
        ++ (List.range n).map ResEv.imageView
        ++ (List.range n).map ResEv.framebufferH
        ++ [ResEv.commandPoolH]
        ++ (List.range n).map ResEv.commandBuffer
        ++ ((List.range n).map
            (fun k => [ResEv.semImageAvailable k, ResEv.semRenderFinished k,
              ResEv.fenceH k])).flatten := by
  simp only [HalState.new, Out.bind_eq, Out.pure_eq] at h
  obtain ⟨a, ha, h⟩ := (Out.bind_eq_ok _ _ _).mp h
  obtain ⟨qf, hqf, h⟩ := (Out.bind_eq_ok _ _ _).mp h
  obtain ⟨u1, hu1, h⟩ := (Out.bind_eq_ok _ _ _).mp h
  by_cases ht : env.take_ok = true
  swap
  · rw [if_neg ht] at h
    simp [Out.bind] at h
  rw [if_pos ht] at h
  simp only [Out.bind] at h
  obtain ⟨u2, hu2, h⟩ := (Out.bind_eq_ok _ _ _).mp h
  obtain ⟨config, hconfig, h⟩ := (Out.bind_eq_ok _ _ _).mp h
  obtain ⟨u3, hu3, h⟩ := (Out.bind_eq_ok _ _ _).mp h
  obtain ⟨u4, hu4, h⟩ := (Out.bind_eq_ok _ _ _).mp h
  have hnqpos : 0 < env.num_queues := by
    have := (require_eq_ok _ _ _).mp hu2
    simpa using this
  cases henv : env.backbuffer with
  | framebuffer =>
    rw [henv] at h
    simp [Out.bind] at h
  | images ni =>
    rw [henv] at h
    simp only [Out.bind] at h
    obtain ⟨ivs, hivs, h⟩ := (Out.bind_eq_ok _ _ _).mp h
    obtain ⟨fbs, hfbs, h⟩ := (Out.bind_eq_ok _ _ _).mp h
    obtain ⟨u5, hu5, h⟩ := (Out.bind_eq_ok _ _ _).mp h
    obtain ⟨sync, hsync, h⟩ := (Out.bind_eq_ok _ _ _).mp h
    have hivlen : ivs.length = ni := create_image_views_ok_length _ _ _ _ hivs
    have hfblen : fbs.length = ivs.length := create_framebuffers_ok_length _ _ _ _ hfbs
    obtain ⟨ia, rf, fs⟩ := sync
    obtain ⟨hialen, hrflen, hfslen, hsig⟩ := create_sync_ok_inv _ _ _ _ _ _ _ hsync
    cases h
    refine ⟨config, ni, hconfig, rfl, rfl, rfl, rfl, rfl, hnqpos, ?_, ?_, ?_, ?_, ?_, ?_,
      hsig, ?_⟩
    · exact hivlen
    · simpa using hfblen.trans hivlen
    · simpa using hfblen.trans hivlen
    · simpa using hfslen.trans (by simpa using hfblen.trans hivlen)
    · simpa using hrflen.trans (by simpa using hfblen.trans hivlen)
    · simpa using hialen.trans (by simpa using hfblen.trans hivlen)
    · simp only [List.length_map, hfblen, hivlen]

theorem find?_of_filter_cons {α : Type} (p : α → Bool) (l : List α) (a : α)
    (rest : List α) (h : l.filter p = a :: rest) : l.find? p = some a := by
  induction l generalizing rest with
  | nil => simp at h
  | cons x xs ih =>
    by_cases hx : p x = true
    · rw [List.filter_cons_of_pos hx] at h
      rw [List.find?_cons_of_pos _ hx]
      simpa using congrArg List.head? h
    · rw [List.filter_cons_of_neg (by simpa using hx)] at h
      rw [List.find?_cons_of_neg _ (by simpa using hx)]
      exact ih _ h

/-! ## Claims -/

/-- C10: `HalState::new` chooses the swapchain format as follows: if no
preferred format list is reported, `Rgba8Srgb`; if a list is reported,
its first entry with `Srgb` channel type; if the reported list has no
`Srgb` entry, its first element; and the error
`"Preferred format list was empty!"` arises exactly when the list is
present and empty. -/
theorem C10_choose_format_spec :
    choose_format none = Out.ok Format.Rgba8Srgb
    ∧ (∀ (l : List Format) (f : Format) (rest : List Format),
        l.filter (fun x => x.channel == ChannelType.Srgb) = f :: rest →
        choose_format (some l) = Out.ok f)
    ∧ (∀ (l : List Format) (f : Format) (rest : List Format),
        l.filter (fun x => x.channel == ChannelType.Srgb) = [] →
        l = f :: rest → choose_format (some l) = Out.ok f)
    ∧ (∀ (l : List Format) (m : String),
        choose_format (some l) = Out.err m ↔
          (l = [] ∧ m = "Preferred format list was empty!")) := by
  refine ⟨rfl, ?_, ?_, ?_⟩
  · intro l f rest h
    simp only [choose_format]
    rw [find?_of_filter_cons _ _ _ _ h]
  · intro l f rest hfil hl
    subst hl
    simp only [choose_format]
    have hfind : (f :: rest).find? (fun x => x.channel == ChannelType.Srgb) = none := by
      rw [List.find?_eq_none]
      intro x hx
      have := List.filter_eq_nil_iff.mp hfil x hx
      simpa using this
    rw [hfind]
    rfl
  · intro l m
    constructor
    · intro h
      simp only [choose_format] at h
      split at h
      next s heq => cases h
      next heq =>
        split at h
        next f0 heq0 => cases h
        next heq0 =>
          cases h
          refine ⟨?_, rfl⟩
          cases l with
          | nil => rfl
          | cons x xs => simp at heq0
    · rintro ⟨rfl, rfl⟩
      rfl

/-- Witness for C10 at a one-element `Srgb` list. -/
theorem C10_witness :
    choose_format (some [{ base := 8, channel := ChannelType.Srgb }])
      = Out.ok { base := 8, channel := ChannelType.Srgb } :=
  C10_choose_format_spec.2.1 [{ base := 8, channel := ChannelType.Srgb }]
    { base := 8, channel := ChannelType.Srgb } [] (by decide)

/-- A concrete driver environment on which `HalState::new` succeeds:
one suitable adapter, `Fifo` present mode, a three-image backbuffer,
every fallible call succeeding. Used by witnesses. -/
def sampleEnv : Env := {
  adapters := [{ queue_families :=
    [{ supports_graphics := true, max_queues := 1, surface_support := true }] }]
  open_ok := true
  take_ok := true
  num_queues := 1
  compat := {
    caps := { image_count_end := 4, extents_end := { width := 800, height := 600 },
              usage_color_attachment := true }
    preferred_formats := some [{ base := 8, channel := ChannelType.Srgb }]
    present_modes := [PresentMode.Fifo]
    composite_alphas := [CompositeAlpha.Opaque] }
  swapchain_ok := true
  backbuffer := BackbufferDesc.images 3
  render_pass_ok := true
  image_view_ok := fun _ => true
  framebuffer_ok := fun _ => true
  command_pool_ok := true
  semaphore_ok := fun _ => true
  fence_ok := fun _ => true }

/-- The state `HalState::new` builds on `sampleEnv`. -/
def sampleState : HalState := {
  current_frame := 0
  frames_in_flight := 2
  in_flight_fences := [{ signaled := true }, { signaled := true }, { signaled := true }]
  render_finished_semaphores := [(), (), ()]
  image_available_semaphores := [(), (), ()]
  command_buffers := [(), (), ()]
  framebuffers := [(), (), ()]
  image_views := [(), (), ()]
  render_area := { width := 800, height := 600 }
  queues := 1
  format := { base := 8, channel := ChannelType.Srgb } }

/-- The creation trace `HalState::new` emits on `sampleEnv`. -/
def sampleCtrace : List ResEv :=
  [ResEv.instanceH, ResEv.surfaceH, ResEv.deviceH, ResEv.swapchainH, ResEv.renderPassH,
   ResEv.imageView 0, ResEv.imageView 1, ResEv.imageView 2,
   ResEv.framebufferH 0, ResEv.framebufferH 1, ResEv.framebufferH 2,
   ResEv.commandPoolH,
   ResEv.commandBuffer 0, ResEv.commandBuffer 1, ResEv.commandBuffer 2,
   ResEv.semImageAvailable 0, ResEv.semRenderFinished 0, ResEv.fenceH 0,
   ResEv.semImageAvailable 1, ResEv.semRenderFinished 1, ResEv.fenceH 1,
   ResEv.semImageAvailable 2, ResEv.semRenderFinished 2, ResEv.fenceH 2]

theorem sampleEnv_new : HalState.new sampleEnv = Out.ok (sampleState, sampleCtrace) := by
  rfl

/-- C9: on success, `frames_in_flight` equals the requested swapchain
image count: `min (caps.image_count.end - 1) 3` under `Mailbox` and
`min (caps.image_count.end - 1) 2` otherwise, the subtraction being
`u32` arithmetic that wraps modulo `2 ^ 32` at `0`; in particular
`frames_in_flight ≤ 3` (so certainly whenever `image_count.end ≥ 1`). -/
theorem C9_frames_in_flight_count (env : Env) (st : HalState) (ctr : List ResEv)
    (h : HalState.new env = Out.ok (st, ctr)) :
    (∃ pm, choose_present_mode env.compat.present_modes = Out.ok pm ∧
      st.frames_in_flight =
        (if pm = PresentMode.Mailbox
         then min ((env.compat.caps.image_count_end + (2 ^ 32 - 1)) % 2 ^ 32) 3
         else min ((env.compat.caps.image_count_end + (2 ^ 32 - 1)) % 2 ^ 32) 2))
    ∧ (env.compat.caps.image_count_end = 0 →
        u32_wrapping_sub_one env.compat.caps.image_count_end = 2 ^ 32 - 1)
    ∧ (1 ≤ env.compat.caps.image_count_end → env.compat.caps.image_count_end < 2 ^ 32 →
        u32_wrapping_sub_one env.compat.caps.image_count_end =
          env.compat.caps.image_count_end - 1)
    ∧ st.frames_in_flight ≤ 3 := by
  obtain ⟨config, n, hconfig, _, _, hfif, _, _, _, _, _, _, _, _, _, _, _⟩ :=
    new_ok_inv env st ctr h
  obtain ⟨pm, ca, f, hpm, hca, hf, husage, hcfg⟩ := swapchain_params_ok_inv _ _ hconfig
  subst hcfg
  refine ⟨⟨pm, hpm, ?_⟩, ?_, ?_, ?_⟩
  · rw [hfif]
    simp [image_count_of, u32_wrapping_sub_one]
  · intro h0
    rw [h0]
    simp [u32_wrapping_sub_one]
  · intro hge hlt
    simp only [u32_wrapping_sub_one]
    omega
  · rw [hfif]
    simp only [image_count_of]
    split
    · exact Nat.min_le_right _ 3
    · exact (Nat.min_le_right _ 2).trans (by norm_num)

/-- Witness for C9 on `sampleEnv` (where `frames_in_flight = 2`). -/
theorem C9_witness :
    (∃ pm, choose_present_mode sampleEnv.compat.present_modes = Out.ok pm ∧
      sampleState.frames_in_flight =
        (if pm = PresentMode.Mailbox
         then min ((sampleEnv.compat.caps.image_count_end + (2 ^ 32 - 1)) % 2 ^ 32) 3
         else min ((sampleEnv.compat.caps.image_count_end + (2 ^ 32 - 1)) % 2 ^ 32) 2))
    ∧ (sampleEnv.compat.caps.image_count_end = 0 →
        u32_wrapping_sub_one sampleEnv.compat.caps.image_count_end = 2 ^ 32 - 1)
    ∧ (1 ≤ sampleEnv.compat.caps.image_count_end →
        sampleEnv.compat.caps.image_count_end < 2 ^ 32 →
        u32_wrapping_sub_one sampleEnv.compat.caps.image_count_end =
          sampleEnv.compat.caps.image_count_end - 1)
    ∧ sampleState.frames_in_flight ≤ 3 :=
  C9_frames_in_flight_count sampleEnv sampleState sampleCtrace sampleEnv_new

/-- C7: every successfully constructed `HalState` carries one
image-available semaphore, one render-finished semaphore and one fence
per command buffer (one command buffer per framebuffer), each fence
created signaled; and `draw_clear_frame` preserves these vector lengths
and the command-buffer vector. -/
theorem C7_sync_triples (env : Env) (st : HalState) (ctr : List ResEv)
    (h : HalState.new env = Out.ok (st, ctr)) :
    (st.image_available_semaphores.length = st.command_buffers.length
      ∧ st.render_finished_semaphores.length = st.command_buffers.length
      ∧ st.in_flight_fences.length = st.command_buffers.length
      ∧ st.command_buffers.length = st.framebuffers.length
      ∧ (∀ f ∈ st.in_flight_fences, f.signaled = true))
    ∧ ∀ (st0 : HalState) (denv : DrawEnv),
        (st0.draw_clear_frame denv).1.image_available_semaphores.length
            = st0.image_available_semaphores.length
        ∧ (st0.draw_clear_frame denv).1.render_finished_semaphores.length
            = st0.render_finished_semaphores.length
        ∧ (st0.draw_clear_frame denv).1.in_flight_fences.length
            = st0.in_flight_fences.length
        ∧ (st0.draw_clear_frame denv).1.command_buffers = st0.command_buffers := by
  constructor
  · obtain ⟨config, n, _, _, _, _, _, _, _, _, hfb, hcb, hff, hrf, hia, hsig, _⟩ :=
      new_ok_inv env st ctr h
    exact ⟨hia.trans hcb.symm, hrf.trans hcb.symm, hff.trans hcb.symm,
      hcb.trans hfb.symm, hsig⟩
  · intro st0 denv
    rcases hg1 : st0.in_flight_fences.get? st0.current_frame with _ | f1 <;>
      rcases hg2 : st0.image_available_semaphores.get? st0.current_frame with _ | s1 <;>
      rcases hg3 : st0.render_finished_semaphores.get? st0.current_frame with _ | s2 <;>
      simp only [HalState.draw_clear_frame, hg1, hg2, hg3] <;>
      (repeat' split) <;>
      simp [List.length_set]

/-- Witness for C7 on `sampleEnv`. -/
theorem C7_witness :
    (sampleState.image_available_semaphores.length
        = sampleState.command_buffers.length
      ∧ sampleState.render_finished_semaphores.length
        = sampleState.command_buffers.length
      ∧ sampleState.in_flight_fences.length = sampleState.command_buffers.length
      ∧ sampleState.command_buffers.length = sampleState.framebuffers.length
      ∧ (∀ f ∈ sampleState.in_flight_fences, f.signaled = true))
    ∧ ∀ (st0 : HalState) (denv : DrawEnv),
        (st0.draw_clear_frame denv).1.image_available_semaphores.length
            = st0.image_available_semaphores.length
        ∧ (st0.draw_clear_frame denv).1.render_finished_semaphores.length
            = st0.render_finished_semaphores.length
        ∧ (st0.draw_clear_frame denv).1.in_flight_fences.length
            = st0.in_flight_fences.length
        ∧ (st0.draw_clear_frame denv).1.command_buffers = st0.command_buffers :=
  C7_sync_triples sampleEnv sampleState sampleCtrace sampleEnv_new

/-- C1: `draw_clear_frame` performs the per-frame synchronization steps
in the order wait-fence, reset-fence, acquire-image, submit, present on
the current frame's primitives, and when an earlier fallible step
fails, no later step of the sequence is performed. -/
theorem C1_draw_sync_order (st : HalState) (denv : DrawEnv)
    (h1 : st.current_frame < st.in_flight_fences.length)
    (h2 : st.current_frame < st.image_available_semaphores.length)
    (h3 : st.current_frame < st.render_finished_semaphores.length)
    (h4 : 0 < st.frames_in_flight)
    (h5 : 0 < st.queues)
    (h6 : ∀ i, denv.acquire_result = some i →
      i < st.command_buffers.length ∧ i < st.framebuffers.length) :
    (denv.wait_ok = false →
      (st.draw_clear_frame denv).2.1 = [DrawEv.waitFence st.current_frame]
      ∧ (st.draw_clear_frame denv).2.2
          = DrawOutcome.err ("Failed to wait on the fence!"))
    ∧ (denv.wait_ok = true → denv.reset_ok = false →
      (st.draw_clear_frame denv).2.1
        = [DrawEv.waitFence st.current_frame, DrawEv.resetFence st.current_frame]
      ∧ (st.draw_clear_frame denv).2.2
          = DrawOutcome.err ("Couldn\x27t reset the fence!"))
    ∧ (denv.wait_ok = true → denv.reset_ok = true → denv.acquire_result = none →
      (st.draw_clear_frame denv).2.1
        = [DrawEv.waitFence st.current_frame, DrawEv.resetFence st.current_frame,
           DrawEv.acquireImage]
      ∧ (st.draw_clear_frame denv).2.2
          = DrawOutcome.err ("Couldn\x27t acquire an image from the swapchain!"))
    ∧ (∀ i, denv.wait_ok = true → denv.reset_ok = true →
        denv.acquire_result = some i →
      (st.draw_clear_frame denv).2.1
        = [DrawEv.waitFence st.current_frame, DrawEv.resetFence st.current_frame,
           DrawEv.acquireImage, DrawEv.submit i, DrawEv.present i]
      ∧ ((st.draw_clear_frame denv).2.2 = DrawOutcome.ok ↔ denv.present_ok = true)
      ∧ (denv.present_ok = false →
          (st.draw_clear_frame denv).2.2
            = DrawOutcome.err ("Failed to present into the swapchain!"))) := by
  obtain ⟨w, r, acq, p⟩ := denv
  have hfz : ¬ st.frames_in_flight = 0 := Nat.pos_iff_ne_zero.mp h4
  have hqz : ¬ st.queues = 0 := Nat.pos_iff_ne_zero.mp h5
  have hg1 : st.in_flight_fences[st.current_frame]?
      = some st.in_flight_fences[st.current_frame] := List.getElem?_eq_getElem h1
  have hg2 : st.image_available_semaphores[st.current_frame]?
      = some st.image_available_semaphores[st.current_frame] :=
    List.getElem?_eq_getElem h2
  have hg3 : st.render_finished_semaphores[st.current_frame]?
      = some st.render_finished_semaphores[st.current_frame] :=
    List.getElem?_eq_getElem h3
  rcases acq with _ | i
  · cases w <;> cases r <;>
      simp [HalState.draw_clear_frame, hg1, hg2, hg3, hfz, hqz]
  · obtain ⟨hcb, hfb⟩ := h6 i rfl
    have hg4 : st.command_buffers[i]? = some st.command_buffers[i] :=
      List.getElem?_eq_getElem hcb
    have hg5 : st.framebuffers[i]? = some st.framebuffers[i] :=
      List.getElem?_eq_getElem hfb
    cases w <;> cases r <;> cases p <;>
      simp [HalState.draw_clear_frame, hg1, hg2, hg3, hg4, hg5, hfz, hqz]

/-- Witness for C1: a concrete in-range state and a present failure. -/
theorem C1_witness :
    (sampleState.draw_clear_frame
        { wait_ok := true, reset_ok := true, acquire_result := some 1,
          present_ok := false }).2.1
      = [DrawEv.waitFence 0, DrawEv.resetFence 0, DrawEv.acquireImage,
         DrawEv.submit 1, DrawEv.present 1]
    ∧ (sampleState.draw_clear_frame
        { wait_ok := true, reset_ok := true, acquire_result := some 1,
          present_ok := false }).2.2
      = DrawOutcome.err ("Failed to present into the swapchain!") := by
  have h := C1_draw_sync_order sampleState
    { wait_ok := true, reset_ok := true, acquire_result := some 1, present_ok := false }
    (by decide) (by decide) (by decide) (by decide) (by decide)
    (by intro i hi; cases hi; exact ⟨by decide, by decide⟩)
  obtain ⟨-, -, -, h4⟩ := h
  obtain ⟨ht, -, hp⟩ := h4 1 rfl rfl rfl
  exact ⟨ht, hp rfl⟩

theorem draw_frames_in_flight_eq (st : HalState) (denv : DrawEnv) :
    (st.draw_clear_frame denv).1.frames_in_flight = st.frames_in_flight := by
  rcases hga : st.in_flight_fences[st.current_frame]? with _ | f1 <;>
    rcases hgb : st.image_available_semaphores[st.current_frame]? with _ | s1 <;>
    rcases hgc : st.render_finished_semaphores[st.current_frame]? with _ | s2 <;>
    simp only [HalState.draw_clear_frame, hga, hgb, hgc] <;>
    (repeat' split) <;> rfl

theorem draw_current_frame_cases (st : HalState) (denv : DrawEnv) :
    (st.draw_clear_frame denv).1.current_frame = st.current_frame
    ∨ (st.draw_clear_frame denv).1.current_frame
        = (st.current_frame + 1) % st.frames_in_flight := by
  rcases hga : st.in_flight_fences[st.current_frame]? with _ | f1 <;>
    rcases hgb : st.image_available_semaphores[st.current_frame]? with _ | s1 <;>
    rcases hgc : st.render_finished_semaphores[st.current_frame]? with _ | s2 <;>
    simp only [HalState.draw_clear_frame, hga, hgb, hgc] <;>
    (repeat' split) <;> simp

theorem draw_advances_unless_panic (st : HalState) (denv : DrawEnv)
    (hnp : (st.draw_clear_frame denv).2.2 ≠ DrawOutcome.panicked) :
    (st.draw_clear_frame denv).1.current_frame
      = (st.current_frame + 1) % st.frames_in_flight := by
  revert hnp
  rcases hga : st.in_flight_fences[st.current_frame]? with _ | f1 <;>
    rcases hgb : st.image_available_semaphores[st.current_frame]? with _ | s1 <;>
    rcases hgc : st.render_finished_semaphores[st.current_frame]? with _ | s2 <;>
    simp only [HalState.draw_clear_frame, hga, hgb, hgc] <;>
    (repeat' split) <;> simp

/-- C8 counterexample: with `frames_in_flight = 1` a call failing at the
fence wait returns `Err` but leaves the state exactly as it was
(`current_frame` becomes `(0 + 1) % 1 = 0` again and nothing else was
touched), refuting the claim's "the state is not left unchanged on
error". -/
theorem C8_counterexample :
    (HalState.draw_clear_frame
      { current_frame := 0, frames_in_flight := 1,
        in_flight_fences := [{ signaled := true }],
        render_finished_semaphores := [()], image_available_semaphores := [()],
        command_buffers := [()], framebuffers := [()], image_views := [()],
        render_area := { width := 800, height := 600 }, queues := 1,
        format := { base := 8, channel := ChannelType.Srgb } }
      { wait_ok := false, reset_ok := true, acquire_result := some 0,
        present_ok := true }).1
      = { current_frame := 0, frames_in_flight := 1,
          in_flight_fences := [{ signaled := true }],
          render_finished_semaphores := [()], image_available_semaphores := [()],
          command_buffers := [()], framebuffers := [()], image_views := [()],
          render_area := { width := 800, height := 600 }, queues := 1,
          format := { base := 8, channel := ChannelType.Srgb } }
    ∧ (HalState.draw_clear_frame
      { current_frame := 0, frames_in_flight := 1,
        in_flight_fences := [{ signaled := true }],
        render_finished_semaphores := [()], image_available_semaphores := [()],
        command_buffers := [()], framebuffers := [()], image_views := [()],
        render_area := { width := 800, height := 600 }, queues := 1,
        format := { base := 8, channel := ChannelType.Srgb } }
      { wait_ok := false, reset_ok := true, acquire_result := some 0,
        present_ok := true }).2.2
      = DrawOutcome.err ("Failed to wait on the fence!")
    ∧ (0 : Nat) < 1 := by
  decide

/-- C8 (amended): `current_frame` starts at `0`; when
`0 < frames_in_flight` and `current_frame < frames_in_flight`, each
`draw_clear_frame` call keeps the invariant and preserves
`frames_in_flight`; every call that returns (`Ok` or `Err`, i.e. does
not panic) sets `current_frame` to
`(old current_frame + 1) % frames_in_flight`, which differs from the
old value whenever `frames_in_flight > 1` (with `frames_in_flight = 1`
an early error leaves the state unchanged). -/
theorem C8_current_frame_invariant :
    (∀ env st ctr, HalState.new env = Out.ok (st, ctr) → st.current_frame = 0)
    ∧ ∀ (st0 : HalState) (denv : DrawEnv), 0 < st0.frames_in_flight →
        st0.current_frame < st0.frames_in_flight →
        ((st0.draw_clear_frame denv).1.current_frame < st0.frames_in_flight
        ∧ (st0.draw_clear_frame denv).1.frames_in_flight = st0.frames_in_flight
        ∧ ((st0.draw_clear_frame denv).2.2 ≠ DrawOutcome.panicked →
            (st0.draw_clear_frame denv).1.current_frame
              = (st0.current_frame + 1) % st0.frames_in_flight)
        ∧ (1 < st0.frames_in_flight →
            (st0.draw_clear_frame denv).2.2 ≠ DrawOutcome.panicked →
            (st0.draw_clear_frame denv).1.current_frame ≠ st0.current_frame)) := by
  constructor
  · intro env st ctr h
    obtain ⟨config, n, _, _, hcf0, _⟩ := new_ok_inv env st ctr h
    exact hcf0
  · intro st0 denv h4 hcf
    have hmod : (st0.current_frame + 1) % st0.frames_in_flight
        < st0.frames_in_flight := Nat.mod_lt _ h4
    have hne : 1 < st0.frames_in_flight →
        (st0.current_frame + 1) % st0.frames_in_flight ≠ st0.current_frame := by
      intro hgt
      rcases Nat.lt_or_ge (st0.current_frame + 1) st0.frames_in_flight with hlt | hge
      · rw [Nat.mod_eq_of_lt hlt]
        omega
      · have heq : st0.current_frame + 1 = st0.frames_in_flight := by omega
        rw [heq, Nat.mod_self]
        omega
    refine ⟨?_, draw_frames_in_flight_eq st0 denv,
      fun hnp => draw_advances_unless_panic st0 denv hnp, ?_⟩
    · rcases draw_current_frame_cases st0 denv with hB | hB
      · rw [hB]
        exact hcf
      · rw [hB]
        exact hmod
    · intro hgt hnp
      rw [draw_advances_unless_panic st0 denv hnp]
      exact hne hgt

/-- Witness for C8 on `sampleState` (`frames_in_flight = 2`) with a
successful call. -/
theorem C8_witness :
    0 < sampleState.frames_in_flight
    ∧ sampleState.current_frame < sampleState.frames_in_flight
    ∧ ((sampleState.draw_clear_frame
          { wait_ok := true, reset_ok := true, acquire_result := some 0,
            present_ok := true }).1.current_frame < sampleState.frames_in_flight
      ∧ (sampleState.draw_clear_frame
          { wait_ok := true, reset_ok := true, acquire_result := some 0,
            present_ok := true }).1.frames_in_flight = sampleState.frames_in_flight
      ∧ ((sampleState.draw_clear_frame
          { wait_ok := true, reset_ok := true, acquire_result := some 0,
            present_ok := true }).2.2 ≠ DrawOutcome.panicked →
          (sampleState.draw_clear_frame
          { wait_ok := true, reset_ok := true, acquire_result := some 0,
            present_ok := true }).1.current_frame
            = (sampleState.current_frame + 1) % sampleState.frames_in_flight)
      ∧ (1 < sampleState.frames_in_flight →
          (sampleState.draw_clear_frame
          { wait_ok := true, reset_ok := true, acquire_result := some 0,
            present_ok := true }).2.2 ≠ DrawOutcome.panicked →
          (sampleState.draw_clear_frame
          { wait_ok := true, reset_ok := true, acquire_result := some 0,
            present_ok := true }).1.current_frame ≠ sampleState.current_frame)) :=
  ⟨by decide, by decide,
    C8_current_frame_invariant.2 sampleState
      { wait_ok := true, reset_ok := true, acquire_result := some 0,
        present_ok := true } (by decide) (by decide)⟩

/-- C3: dropping a successfully constructed `HalState` destroys its GPU
handles in the stated reverse order: every fence, then every
render-finished semaphore, then every image-available semaphore, then
every framebuffer, then every image view, then the command pool, the
render pass, the swapchain, the device, and last the instance — the
reverse, category by category, of what `HalState::new` created (whose
creation trace is also pinned down here). -/
theorem C3_drop_reverse_order (env : Env) (st : HalState) (ctr : List ResEv)
    (h : HalState.new env = Out.ok (st, ctr)) :
    st.in_flight_fences.length = st.command_buffers.length
    ∧ st.render_finished_semaphores.length = st.command_buffers.length
    ∧ st.image_available_semaphores.length = st.command_buffers.length
    ∧ st.framebuffers.length = st.command_buffers.length
    ∧ st.image_views.length = st.command_buffers.length
    ∧ ctr = [ResEv.instanceH, ResEv.surfaceH, ResEv.deviceH, ResEv.swapchainH,
          ResEv.renderPassH]
        ++ (List.range st.command_buffers.length).map ResEv.imageView
        ++ (List.range st.command_buffers.length).map ResEv.framebufferH
        ++ [ResEv.commandPoolH]
        ++ (List.range st.command_buffers.length).map ResEv.commandBuffer
        ++ ((List.range st.command_buffers.length).map
            (fun k => [ResEv.semImageAvailable k, ResEv.semRenderFinished k,
              ResEv.fenceH k])).flatten
    ∧ st.dropTrace =
        (List.range st.command_buffers.length).map ResEv.fenceH
        ++ (List.range st.command_buffers.length).map ResEv.semRenderFinished
        ++ (List.range st.command_buffers.length).map ResEv.semImageAvailable
        ++ (List.range st.command_buffers.length).map ResEv.framebufferH
        ++ (List.range st.command_buffers.length).map ResEv.imageView
        ++ [ResEv.commandPoolH, ResEv.renderPassH, ResEv.swapchainH, ResEv.deviceH,
            ResEv.instanceH] := by
  obtain ⟨config, n, hconfig, hbb, hcf0, hfif, hfmt, hra, hq, hiv, hfb, hcb, hff,
    hrf, hia, hsig, hctr⟩ := new_ok_inv env st ctr h
  refine ⟨hff.trans hcb.symm, hrf.trans hcb.symm, hia.trans hcb.symm,
    hfb.trans hcb.symm, hiv.trans hcb.symm, ?_, ?_⟩
  · rw [hctr, hcb]
  · simp only [HalState.dropTrace, hff, hrf, hia, hfb, hiv, hcb]

/-- Witness for C3 on `sampleEnv` (three frame slots). -/
theorem C3_witness :
    sampleState.in_flight_fences.length = sampleState.command_buffers.length
    ∧ sampleState.render_finished_semaphores.length
        = sampleState.command_buffers.length
    ∧ sampleState.image_available_semaphores.length
        = sampleState.command_buffers.length
    ∧ sampleState.framebuffers.length = sampleState.command_buffers.length
    ∧ sampleState.image_views.length = sampleState.command_buffers.length
    ∧ sampleCtrace = [ResEv.instanceH, ResEv.surfaceH, ResEv.deviceH,
          ResEv.swapchainH, ResEv.renderPassH]
        ++ (List.range sampleState.command_buffers.length).map ResEv.imageView
        ++ (List.range sampleState.command_buffers.length).map ResEv.framebufferH
        ++ [ResEv.commandPoolH]
        ++ (List.range sampleState.command_buffers.length).map ResEv.commandBuffer
        ++ ((List.range sampleState.command_buffers.length).map
            (fun k => [ResEv.semImageAvailable k, ResEv.semRenderFinished k,
              ResEv.fenceH k])).flatten
    ∧ sampleState.dropTrace =
        (List.range sampleState.command_buffers.length).map ResEv.fenceH
        ++ (List.range sampleState.command_buffers.length).map ResEv.semRenderFinished
        ++ (List.range sampleState.command_buffers.length).map ResEv.semImageAvailable
        ++ (List.range sampleState.command_buffers.length).map ResEv.framebufferH
        ++ (List.range sampleState.command_buffers.length).map ResEv.imageView
        ++ [ResEv.commandPoolH, ResEv.renderPassH, ResEv.swapchainH, ResEv.deviceH,
            ResEv.instanceH] :=
  C3_drop_reverse_order sampleEnv sampleState sampleCtrace sampleEnv_new

/-- The static error strings `HalState::new` can return, other than the
adapter-search failure. -/
def newErrorStringsTail : List String :=
  ["Couldn\x27t find a QueueFamily with graphics!",
   "Couldn\x27t open the PhysicalDevice!",
   "Couldn\x27t take ownership of the QueueGroup!",
   "The QueueGroup did not have any CommandQueues available!",
   "No PresentMode values specified!",
   "No CompositeAlpha values specified!",
   "Preferred format list was empty!",
   "The Surface isn\x27t capable of supporting color!",
   "Failed to create the swapchain!",
   "Couldn\x27t create a render pass!",
   "Couldn\x27t create the image_view for the image!",
   "Failed to create a framebuffer!",
   "Could not create the raw command pool!",
   "Could not create a semaphore!",
   "Could not create a fence!"]

/-- All static error strings `HalState::new` can return. -/
def newErrorStrings : List String :=
  "Couldn\x27t find a graphical Adapter!" :: newErrorStringsTail

theorem new_err_no_adapter (env : Env)
    (hfind : env.adapters.find? (fun x => x.queue_families.any qf_suitable) = none) :
    HalState.new env = Out.err ("Couldn\x27t find a graphical Adapter!") := by
  have hfa : find_adapter env.adapters
      = Out.err ("Couldn\x27t find a graphical Adapter!") := by
    unfold find_adapter
    rw [hfind]
  simp only [HalState.new, Out.bind_eq, hfa, Out.bind]

theorem new_err_after_adapter (env : Env) (a : AdapterDesc) (m : String)
    (ha : env.adapters.find? (fun x => x.queue_families.any qf_suitable) = some a)
    (h : HalState.new env = Out.err m) : m ∈ newErrorStringsTail := by
  simp only [HalState.new, Out.bind_eq, Out.pure_eq] at h
  rw [show find_adapter env.adapters = Out.ok a from (find_adapter_eq_ok _ _).mpr ha]
    at h
  simp only [Out.bind] at h
  rcases (Out.bind_eq_err _ _ _).mp h with h | ⟨qf, hqf, h⟩
  · simp [find_queue_family_eq_err _ _ h, newErrorStringsTail]
  rcases (Out.bind_eq_err _ _ _).mp h with h | ⟨u1, hu1, h⟩
  · obtain ⟨hm, -⟩ := require_eq_err _ _ _ h
    simp [hm, newErrorStringsTail]
  by_cases ht : env.take_ok = true
  swap
  · rw [if_neg ht] at h
    cases h
    simp [newErrorStringsTail]
  rw [if_pos ht] at h
  rcases (Out.bind_eq_err _ _ _).mp h with h | ⟨u2, hu2, h⟩
  · obtain ⟨hm, -⟩ := require_eq_err _ _ _ h
    simp [hm, newErrorStringsTail]
  rcases (Out.bind_eq_err _ _ _).mp h with h | ⟨config, hconfig, h⟩
  · have hmem := swapchain_params_eq_err _ _ h
    simp only [List.mem_cons, List.not_mem_nil, or_false] at hmem
    rcases hmem with rfl | rfl | rfl | rfl <;> simp [newErrorStringsTail]
  rcases (Out.bind_eq_err _ _ _).mp h with h | ⟨u3, hu3, h⟩
  · obtain ⟨hm, -⟩ := require_eq_err _ _ _ h
    simp [hm, newErrorStringsTail]
  rcases (Out.bind_eq_err _ _ _).mp h with h | ⟨u4, hu4, h⟩
  · obtain ⟨hm, -⟩ := require_eq_err _ _ _ h
    simp [hm, newErrorStringsTail]
  cases henv : env.backbuffer with
  | framebuffer =>
    rw [henv] at h
    simp [Out.bind] at h
  | images ni =>
    rw [henv] at h
    simp only [Out.bind] at h
    rcases (Out.bind_eq_err _ _ _).mp h with h | ⟨ivs, hivs, h⟩
    · simp [create_image_views_eq_err _ _ _ _ h, newErrorStringsTail]
    rcases (Out.bind_eq_err _ _ _).mp h with h | ⟨fbs, hfbs, h⟩
    · simp [create_framebuffers_eq_err _ _ _ _ h, newErrorStringsTail]
    rcases (Out.bind_eq_err _ _ _).mp h with h | ⟨u5, hu5, h⟩
    · obtain ⟨hm, -⟩ := require_eq_err _ _ _ h
      simp [hm, newErrorStringsTail]
    rcases (Out.bind_eq_err _ _ _).mp h with h | ⟨sync, hsync, h⟩
    · rcases create_sync_eq_err _ _ _ _ _ h with hm | hm <;>
        simp [hm, newErrorStringsTail]
    · cases h

/-- C2 counterexample: on an environment where construction succeeds up
to the backbuffer but the backbuffer is of the `Framebuffer` variant,
`HalState::new` aborts through `unimplemented!` (a panic), not through
an `Err` string — so the `Err` strings are not the only failure
channel. -/
theorem C2_counterexample :
    HalState.new { sampleEnv with backbuffer := BackbufferDesc.framebuffer }
      = Out.panic ("Can\x27t handle framebuffer backbuffer!") := by
  rfl

/-- C2 (amended): `HalState::new` returns
`Err("Couldn't find a graphical Adapter!")` exactly when no enumerated
adapter has a queue family that supports graphics, has positive
`max_queues`, and is supported by the surface; every `Err` it returns
carries one of a fixed set of static strings; but `Err` is not the only
failure channel, since a `Framebuffer` backbuffer makes it panic. -/
theorem C2_error_strings (env : Env) :
    (HalState.new env = Out.err ("Couldn\x27t find a graphical Adapter!") ↔
      ∀ a ∈ env.adapters, ∀ qf ∈ a.queue_families,
        ¬(qf.supports_graphics = true ∧ 0 < qf.max_queues
          ∧ qf.surface_support = true))
    ∧ (∀ m, HalState.new env = Out.err m → m ∈ newErrorStrings) := by
  have hqf : ∀ qf : QueueFamilyDesc, qf_suitable qf = true ↔
      (qf.supports_graphics = true ∧ 0 < qf.max_queues
        ∧ qf.surface_support = true) := by
    intro qf
    simp [qf_suitable, Bool.and_eq_true, and_assoc]
  constructor
  · constructor
    · intro h
      rcases hfind : env.adapters.find? (fun x => x.queue_families.any qf_suitable)
        with _ | a
      · intro a ha qf hqfm hcond
        have hsuit : qf_suitable qf = true := (hqf qf).mpr hcond
        have hnone := List.find?_eq_none.mp hfind a ha
        exact hnone (List.any_eq_true.mpr ⟨qf, hqfm, hsuit⟩)
      · exfalso
        have hmem := new_err_after_adapter env a _ hfind h
        simp [newErrorStringsTail] at hmem
    · intro hcond
      apply new_err_no_adapter
      rw [List.find?_eq_none]
      intro a ha
      simp only [List.any_eq_true, not_exists, not_and]
      intro qf hqfm hsuit
      exact hcond a ha qf hqfm ((hqf qf).mp hsuit)
  · intro m h
    rcases hfind : env.adapters.find? (fun x => x.queue_families.any qf_suitable)
      with _ | a
    · have hm := new_err_no_adapter env hfind
      cases hm.symm.trans h
      simp [newErrorStrings]
    · have := new_err_after_adapter env a m hfind h
      simp only [newErrorStrings, List.mem_cons]
      exact Or.inr (by simpa using this)

/-- Witness for C2 at an environment with no adapters. -/
theorem C2_witness :
    HalState.new { sampleEnv with adapters := [] }
      = Out.err ("Couldn\x27t find a graphical Adapter!")
    ∧ "Couldn\x27t find a graphical Adapter!" ∈ newErrorStrings := by
  have h := (C2_error_strings { sampleEnv with adapters := [] }).1.mpr (by simp)
  exact ⟨h, (C2_error_strings { sampleEnv with adapters := [] }).2 _ h⟩

/-- A second environment with the same compatibility report as
`sampleEnv` but different adapters, queue count and backbuffer size. -/
def sampleEnv2 : Env :=
  { sampleEnv with
    adapters := [{ queue_families :=
      [{ supports_graphics := false, max_queues := 0, surface_support := false },
       { supports_graphics := true, max_queues := 1, surface_support := true }] }]
    num_queues := 2
    backbuffer := BackbufferDesc.images 2 }

/-- The state `HalState::new` builds on `sampleEnv2`. -/
def sampleState2 : HalState := {
  current_frame := 0
  frames_in_flight := 2
  in_flight_fences := [{ signaled := true }, { signaled := true }]
  render_finished_semaphores := [(), ()]
  image_available_semaphores := [(), ()]
  command_buffers := [(), ()]
  framebuffers := [(), ()]
  image_views := [(), ()]
  render_area := { width := 800, height := 600 }
  queues := 2
  format := { base := 8, channel := ChannelType.Srgb } }

/-- The creation trace `HalState::new` emits on `sampleEnv2`. -/
def sampleCtrace2 : List ResEv :=
  [ResEv.instanceH, ResEv.surfaceH, ResEv.deviceH, ResEv.swapchainH, ResEv.renderPassH,
   ResEv.imageView 0, ResEv.imageView 1,
   ResEv.framebufferH 0, ResEv.framebufferH 1,
   ResEv.commandPoolH,
   ResEv.commandBuffer 0, ResEv.commandBuffer 1,
   ResEv.semImageAvailable 0, ResEv.semRenderFinished 0, ResEv.fenceH 0,
   ResEv.semImageAvailable 1, ResEv.semRenderFinished 1, ResEv.fenceH 1]

theorem sampleEnv2_new : HalState.new sampleEnv2 = Out.ok (sampleState2, sampleCtrace2) := by
  rfl

/-- C4 counterexample: the repository does contain a deterministic pure
computation. Two runs of `HalState::new` on environments with equal
compatibility reports but different adapters, queue counts and
backbuffers yield the same `frames_in_flight`: the image-count logic is
a pure function of its inputs, with equal outputs on equal inputs
independent of the rest of the external behaviour — refuting "no
computation in this repository is a pure function of its inputs". -/
theorem C4_counterexample :
    HalState.new sampleEnv = Out.ok (sampleState, sampleCtrace)
    ∧ HalState.new sampleEnv2 = Out.ok (sampleState2, sampleCtrace2)
    ∧ sampleEnv.adapters ≠ sampleEnv2.adapters
    ∧ sampleEnv.compat = sampleEnv2.compat
    ∧ sampleState.frames_in_flight = sampleState2.frames_in_flight :=
  ⟨rfl, rfl, by decide, rfl, rfl⟩

/-- C4 (amended): almost all behaviour is delegated to external
libraries, but the repository does contain deterministic pure logic:
the swapchain-parameter selection of `HalState::new` is a pure function
of the surface compatibility report, so any two successful
constructions with equal compatibility data agree on
`frames_in_flight`, format and render area regardless of every other
aspect of external library behaviour. -/
theorem C4_deterministic_logic (env1 env2 : Env) (st1 st2 : HalState)
    (ctr1 ctr2 : List ResEv)
    (hc : env1.compat = env2.compat)
    (h1 : HalState.new env1 = Out.ok (st1, ctr1))
    (h2 : HalState.new env2 = Out.ok (st2, ctr2)) :
    st1.frames_in_flight = st2.frames_in_flight
    ∧ st1.format = st2.format
    ∧ st1.render_area = st2.render_area := by
  obtain ⟨config1, n1, hcfg1, _, _, hfif1, hfmt1, hra1, _, _, _, _, _, _, _, _, _⟩ :=
    new_ok_inv _ _ _ h1
  obtain ⟨config2, n2, hcfg2, _, _, hfif2, hfmt2, hra2, _, _, _, _, _, _, _, _, _⟩ :=
    new_ok_inv _ _ _ h2
  rw [hc] at hcfg1
  have hcc : config1 = config2 := by
    have h12 := hcfg1.symm.trans hcfg2
    cases h12
    rfl
  subst hcc
  exact ⟨hfif1.trans hfif2.symm, hfmt1.trans hfmt2.symm, hra1.trans hra2.symm⟩

/-- Witness for C4 on `sampleEnv`/`sampleEnv2`. -/
theorem C4_witness :
    sampleState.frames_in_flight = sampleState2.frames_in_flight
    ∧ sampleState.format = sampleState2.format
    ∧ sampleState.render_area = sampleState2.render_area :=
  C4_deterministic_logic sampleEnv sampleEnv2 sampleState sampleState2
    sampleCtrace sampleCtrace2 rfl sampleEnv_new sampleEnv2_new

theorem processEvent_running_of_ne {F : Type} (st : LoopState F) (e : WEvent F)
    (h : e ≠ WEvent.closeRequested) : (processEvent st e).running = st.running := by
  cases e with
  | closeRequested => exact absurd rfl h
  | resized w h2 => rfl
  | cursorMoved x y => rfl
  | other => rfl

theorem foldl_running_false {F : Type} (evs : List (WEvent F)) (st : LoopState F)
    (hst : st.running = true)
    (h : (evs.foldl processEvent st).running = false) :
    WEvent.closeRequested ∈ evs := by
  induction evs generalizing st with
  | nil => simp [List.foldl, hst] at h
  | cons e rest ih =>
    by_cases he : e = WEvent.closeRequested
    · simp [he]
    · have hkeep : (processEvent st e).running = true := by
        rw [processEvent_running_of_ne st e he, hst]
      exact List.mem_cons_of_mem _ (ih (processEvent st e) hkeep (by simpa using h))

/-- C6: the frame loop aborts on the first `draw_clear_frame` failure —
the trace is a run of successful draws, and either the script ran out
with the loop still going (no exit), or the loop exited because of a
`CloseRequested` event (with no failed draw), or it exited because the
last draw failed; whenever it exits, `wait_until_idle` runs exactly
once, after the loop. -/
theorem C6_loop_aborts {F : Type} [Div F] [Add F] [Mul F] [One F] (c03 : F)
    (script : List (IterInput F)) (st0 : LoopState F) (hrun : st0.running = true) :
    ∃ ds : List (MainEv F),
      (∀ ev ∈ ds, ∃ c, ev = MainEv.draw c (Except.ok ()))
      ∧ (((runMain c03 script st0).2 = none ∧ (runMain c03 script st0).1 = ds)
        ∨ ((runMain c03 script st0).2 = some ExitReason.closed
            ∧ (runMain c03 script st0).1 = ds ++ [MainEv.waitIdle]
            ∧ ∃ it ∈ script, WEvent.closeRequested ∈ it.events)
        ∨ (∃ c e, (runMain c03 script st0).2 = some ExitReason.drawFailed
            ∧ (runMain c03 script st0).1
                = ds ++ [MainEv.draw c (Except.error e), MainEv.waitIdle])) := by
  induction script generalizing st0 with
  | nil => exact ⟨[], by simp, Or.inl ⟨rfl, rfl⟩⟩
  | cons it rest ih =>
    by_cases hr1 : (it.events.foldl processEvent st0).running = false
    · refine ⟨[], by simp, Or.inr (Or.inl ⟨?_, ?_,
        it, List.mem_cons_self it rest, foldl_running_false _ _ hrun hr1⟩)⟩
      · simp [runMain, hr1]
      · simp [runMain, hr1]
    · have hr1' : (it.events.foldl processEvent st0).running = true := by
        cases hb : (it.events.foldl processEvent st0).running
        · exact absurd hb hr1
        · rfl
      rcases hres : it.draw_result with e | u
      · refine ⟨[], by simp, Or.inr (Or.inr
          ⟨((it.events.foldl processEvent st0).mouse_x
              / (it.events.foldl processEvent st0).frame_width,
            (it.events.foldl processEvent st0).mouse_y
              / (it.events.foldl processEvent st0).frame_height,
            ((it.events.foldl processEvent st0).mouse_x
              / (it.events.foldl processEvent st0).frame_width
             + (it.events.foldl processEvent st0).mouse_y
              / (it.events.foldl processEvent st0).frame_height) * c03, (1 : F)),
            e, ?_, ?_⟩)⟩
        · simp [runMain, hr1', hres]
        · simp [runMain, hr1', hres]
      · obtain ⟨ds, hok, hcases⟩ := ih (it.events.foldl processEvent st0) hr1'
        have hstep : runMain c03 (it :: rest) st0 =
            (MainEv.draw
              ((it.events.foldl processEvent st0).mouse_x
                  / (it.events.foldl processEvent st0).frame_width,
               (it.events.foldl processEvent st0).mouse_y
                  / (it.events.foldl processEvent st0).frame_height,
               ((it.events.foldl processEvent st0).mouse_x
                  / (it.events.foldl processEvent st0).frame_width
                + (it.events.foldl processEvent st0).mouse_y
                  / (it.events.foldl processEvent st0).frame_height) * c03, (1 : F))
              (Except.ok ())
              :: (runMain c03 rest (it.events.foldl processEvent st0)).1,
             (runMain c03 rest (it.events.foldl processEvent st0)).2) := by
          simp [runMain, hr1', hres]
        refine ⟨MainEv.draw
            ((it.events.foldl processEvent st0).mouse_x
                / (it.events.foldl processEvent st0).frame_width,
             (it.events.foldl processEvent st0).mouse_y
                / (it.events.foldl processEvent st0).frame_height,
             ((it.events.foldl processEvent st0).mouse_x
                / (it.events.foldl processEvent st0).frame_width
              + (it.events.foldl processEvent st0).mouse_y
                / (it.events.foldl processEvent st0).frame_height) * c03, (1 : F))
            (Except.ok ()) :: ds, ?_, ?_⟩
        · intro ev hev
          rcases List.mem_cons.mp hev with rfl | hev
          · exact ⟨_, rfl⟩
          · exact hok ev hev
        · rcases hcases with ⟨hex, htr⟩ | ⟨hex, htr, hit⟩ | ⟨c, e, hex, htr⟩
          · exact Or.inl ⟨by rw [hstep]; exact hex, by rw [hstep]; simp [htr]⟩
          · refine Or.inr (Or.inl ⟨by rw [hstep]; exact hex, ?_, ?_⟩)
            · rw [hstep]
              simp [htr]
            · obtain ⟨it2, hit2, hcl⟩ := hit
              exact ⟨it2, List.mem_cons_of_mem _ hit2, hcl⟩
          · refine Or.inr (Or.inr ⟨c, e, by rw [hstep]; exact hex, ?_⟩)
            rw [hstep]
            simp [htr]

/-- Witness for C6: a single-iteration script delivering
`CloseRequested`, over the rationals. -/
theorem C6_witness :
    (⟨true, 800, 600, 0, 0⟩ : LoopState ℚ).running = true
    ∧ ∃ ds : List (MainEv ℚ),
      (∀ ev ∈ ds, ∃ c, ev = MainEv.draw c (Except.ok ()))
      ∧ (((runMain (3 / 10 : ℚ) [⟨[WEvent.closeRequested], Except.ok ()⟩]
              ⟨true, 800, 600, 0, 0⟩).2 = none
          ∧ (runMain (3 / 10 : ℚ) [⟨[WEvent.closeRequested], Except.ok ()⟩]
              ⟨true, 800, 600, 0, 0⟩).1 = ds)
        ∨ ((runMain (3 / 10 : ℚ) [⟨[WEvent.closeRequested], Except.ok ()⟩]
              ⟨true, 800, 600, 0, 0⟩).2 = some ExitReason.closed
            ∧ (runMain (3 / 10 : ℚ) [⟨[WEvent.closeRequested], Except.ok ()⟩]
              ⟨true, 800, 600, 0, 0⟩).1 = ds ++ [MainEv.waitIdle]
            ∧ ∃ it ∈ ([⟨[WEvent.closeRequested], Except.ok ()⟩] : List (IterInput ℚ)),
                WEvent.closeRequested ∈ it.events)
        ∨ (∃ c e, (runMain (3 / 10 : ℚ) [⟨[WEvent.closeRequested], Except.ok ()⟩]
              ⟨true, 800, 600, 0, 0⟩).2 = some ExitReason.drawFailed
            ∧ (runMain (3 / 10 : ℚ) [⟨[WEvent.closeRequested], Except.ok ()⟩]
              ⟨true, 800, 600, 0, 0⟩).1
                = ds ++ [MainEv.draw c (Except.error e), MainEv.waitIdle])) :=
  ⟨rfl, C6_loop_aborts (3 / 10 : ℚ) [⟨[WEvent.closeRequested], Except.ok ()⟩]
    ⟨true, 800, 600, 0, 0⟩ rfl⟩

theorem lastResized_append {F : Type} (l1 l2 : List (WEvent F)) :
    lastResized (l1 ++ l2) =
      match lastResized l2 with
      | some p => some p
      | none => lastResized l1 := by
  induction l1 with
  | nil => cases h2 : lastResized l2 <;> simp [lastResized, h2]
  | cons e rest ih =>
    cases h2 : lastResized l2 <;> cases hr : lastResized rest <;>
      simp [lastResized, ih, h2, hr]

theorem lastCursor_append {F : Type} (l1 l2 : List (WEvent F)) :
    lastCursor (l1 ++ l2) =
      match lastCursor l2 with
      | some p => some p
      | none => lastCursor l1 := by
  induction l1 with
  | nil => cases h2 : lastCursor l2 <;> simp [lastCursor, h2]
  | cons e rest ih =>
    cases h2 : lastCursor l2 <;> cases hr : lastCursor rest <;>
      simp [lastCursor, ih, h2, hr]

theorem getD_lastResized_append {F : Type} (l1 l2 : List (WEvent F)) (d : F × F) :
    (lastResized (l1 ++ l2)).getD d = (lastResized l2).getD ((lastResized l1).getD d) := by
  rw [lastResized_append]
  cases lastResized l2 <;> simp

theorem getD_lastCursor_append {F : Type} (l1 l2 : List (WEvent F)) (d : F × F) :
    (lastCursor (l1 ++ l2)).getD d = (lastCursor l2).getD ((lastCursor l1).getD d) := by
  rw [lastCursor_append]
  cases lastCursor l2 <;> simp

theorem foldl_frame_size {F : Type} (evs : List (WEvent F)) (st : LoopState F) :
    ((evs.foldl processEvent st).frame_width, (evs.foldl processEvent st).frame_height)
      = (lastResized evs).getD (st.frame_width, st.frame_height) := by
  induction evs generalizing st with
  | nil => simp [lastResized]
  | cons e rest ih =>
    simp only [List.foldl_cons, lastResized]
    rw [ih]
    cases hr : lastResized rest
    · cases e <;> simp [processEvent]
    · simp

theorem foldl_mouse {F : Type} (evs : List (WEvent F)) (st : LoopState F) :
    ((evs.foldl processEvent st).mouse_x, (evs.foldl processEvent st).mouse_y)
      = (lastCursor evs).getD (st.mouse_x, st.mouse_y) := by
  induction evs generalizing st with
  | nil => simp [lastCursor]
  | cons e rest ih =>
    simp only [List.foldl_cons, lastCursor]
    rw [ih]
    cases hr : lastCursor rest
    · cases e <;> simp [processEvent]
    · simp

theorem runMain_colors_aux {F : Type} [Div F] [Add F] [Mul F] [One F] [Zero F]
    (c03 w0 h0 : F) (script : List (IterInput F)) (past : List (WEvent F))
    (st : LoopState F)
    (hwh : (st.frame_width, st.frame_height) = (lastResized past).getD (w0, h0))
    (hxy : (st.mouse_x, st.mouse_y) = (lastCursor past).getD (0, 0)) :
    ∃ t, specColorsFrom c03 w0 h0 past (script.map IterInput.events)
      = drawsOf (runMain c03 script st).1 ++ t := by
  induction script generalizing past st with
  | nil => exact ⟨[], by simp [runMain, drawsOf, specColorsFrom]⟩
  | cons it rest ih =>
    have hpairWH : ((it.events.foldl processEvent st).frame_width,
        (it.events.foldl processEvent st).frame_height)
        = (lastResized (past ++ it.events)).getD (w0, h0) := by
      rw [getD_lastResized_append, foldl_frame_size, hwh]
    have hpairXY : ((it.events.foldl processEvent st).mouse_x,
        (it.events.foldl processEvent st).mouse_y)
        = (lastCursor (past ++ it.events)).getD (0, 0) := by
      rw [getD_lastCursor_append, foldl_mouse, hxy]
    have hcol : specColor c03 w0 h0 (past ++ it.events)
        = ((it.events.foldl processEvent st).mouse_x
              / (it.events.foldl processEvent st).frame_width,
           (it.events.foldl processEvent st).mouse_y
              / (it.events.foldl processEvent st).frame_height,
           ((it.events.foldl processEvent st).mouse_x
              / (it.events.foldl processEvent st).frame_width
            + (it.events.foldl processEvent st).mouse_y
              / (it.events.foldl processEvent st).frame_height) * c03, (1 : F)) := by
      simp only [specColor]
      rw [← hpairWH, ← hpairXY]
    cases hr : (it.events.foldl processEvent st).running
    · exact ⟨specColorsFrom c03 w0 h0 past ((it :: rest).map IterInput.events),
        by simp [runMain, hr, drawsOf]⟩
    · rcases hres : it.draw_result with e | u
      · refine ⟨specColorsFrom c03 w0 h0 (past ++ it.events) (rest.map IterInput.events),
          ?_⟩
        simp only [List.map_cons, specColorsFrom, runMain, hr, hres]
        simp [drawsOf, hcol]
      · obtain ⟨t, ht⟩ := ih (past ++ it.events) (it.events.foldl processEvent st)
          hpairWH hpairXY
        refine ⟨t, ?_⟩
        simp only [List.map_cons, specColorsFrom, runMain, hr, hres]
        simp [drawsOf, hcol, ht]

/-- C5: on every iteration of the main loop, the color handed to
`draw_clear_frame` is `[r, g, b, a]` with `r` the most recent cursor x
over the most recent frame width, `g` the most recent cursor y over the
most recent frame height, `b = (r + g) * 0.3` and `a = 1.0`, the cursor
position and frame size being those of the most recent `CursorMoved`
and `Resized` events (defaulting to the initial window size and
`(0, 0)`): the sequence of drawn colors is a prefix of the spec-side
`specColors` sequence. -/
theorem C5_colors_follow_mouse {F : Type} [Div F] [Add F] [Mul F] [One F] [Zero F]
    (c03 w0 h0 : F) (script : List (IterInput F)) :
    ∃ t, specColors c03 w0 h0 (script.map IterInput.events)
      = drawsOf (runMain c03 script
          { running := true, frame_width := w0, frame_height := h0,
            mouse_x := 0, mouse_y := 0 }).1 ++ t := by
  exact runMain_colors_aux c03 w0 h0 script []
    { running := true, frame_width := w0, frame_height := h0, mouse_x := 0, mouse_y := 0 }
    (by simp [lastResized]) (by simp [lastCursor])

end ClearScreen
